import Mathlib

/-!
Verification of the R5 RISC-V (RV64I) interpreter.

The repository contains three revisions of the instruction-execution engine:
`src/cpu.c` (function `exec32`), `src/core.c` (function `exec`) and
`src/r5.c` (function `exec`).  All three mutate a hart state
`CPU { uint64_t regs[32]; uint64_t pc; }`.  This file is a shallow embedding
of those functions: machine integers become `Nat` values kept below `2^64`
(resp. `2^32`) with explicit wrap-around, the signed `int64_t` immediates
become `Int`, and the register file becomes a function `Nat → Nat` updated
with `Function.update` (the C code only ever indexes it with the 5-bit
fields `rd`, `rs1`, `rs2`).

The C code reads the local variable `should_branch` without initializing it
when a BRANCH instruction carries `funct3 = 2` or `funct3 = 3` (the inner
`switch` has no case assigning it there).  That indeterminate value is made
explicit as a `junk : Bool` parameter of the embedded executors.

The bus (`src/bus.h`) is an external collaborator; its four load operations
are a parameter `Bus`.  Its stores act only on external memory, never on the
hart state, so they have no effect on the embedded `CPU` value.
-/

namespace R5

/-- Sign-extension of the low `w` bits of `v`, read as a two's-complement
`w`-bit field, to a mathematical integer.  This is the meaning of the C
assignment to a `signed int x: w` bitfield followed by reading it back
(the struct-bitfield trick used by all `decode_immediate_*` functions):
the stored value is `v` reduced mod `2^w` and the read is sign-extended. -/
def sext (w v : Nat) : Int :=
  if v % 2 ^ w < 2 ^ (w - 1) then ((v % 2 ^ w : Nat) : Int)
  else ((v % 2 ^ w : Nat) : Int) - 2 ^ w

/-- Conversion of a signed 64-bit quantity (`Int`) to its `uint64_t`
bit-pattern: reduction mod `2^64`.  This is the C conversion from `int64_t`
to `uint64_t`. -/
def wrap64 (v : Int) : Nat := (v % (2 ^ 64 : Int)).toNat

/-- `arithmetic_shift_right` / `arithmetic_shift_right_64` from r5.c and
core.c: `value_signed < 0 ? ~(~value_signed >> shift) : value_signed >> shift`,
computed on the 64-bit pattern (`~x` on a 64-bit pattern is `2^64 - 1 - x`).
cpu.c instead writes `(int64_t)x >> shift` directly, which under the
implementation-defined semantics the code relies on (GCC) is the same
arithmetic shift, so one embedding serves all three files. -/
def arithmetic_shift_right_64 (v s : Nat) : Nat :=
  if v % 2 ^ 64 < 2 ^ 63 then (v % 2 ^ 64) >>> s
  else 2 ^ 64 - 1 - ((2 ^ 64 - 1 - v % 2 ^ 64) >>> s)

/-- `arithmetic_shift_right_32` from core.c (and the `(int32_t)x >> shift`
casts in cpu.c), producing the 32-bit result pattern. -/
def arithmetic_shift_right_32 (v s : Nat) : Nat :=
  if v % 2 ^ 32 < 2 ^ 31 then (v % 2 ^ 32) >>> s
  else 2 ^ 32 - 1 - ((2 ^ 32 - 1 - v % 2 ^ 32) >>> s)

/-! ## Immediate decoders

The five decoders are textually identical in cpu.c, core.c and r5.c, so they
are embedded once.  Each assigns a bit-combination of the 32-bit instruction
word to a `signed int x: w` bitfield and returns it as `int64_t`; `sext w`
captures both the truncation to `w` bits and the sign extension.  Note the
declared widths from the source: 12 for I and S, 13 for B, and 20 for both
U and J (the U immediate needs 32 bits and the J immediate 21, so the two
last decoders truncate - this is faithful to the code). -/

/-- cpu.c lines 82-86 (identical in core.c, r5.c). -/
def decode_immediate_I (insn : Nat) : Int := sext 12 (insn >>> 20)

/-- cpu.c lines 88-92 (identical in core.c, r5.c). -/
def decode_immediate_S (insn : Nat) : Int :=
  sext 12 (((insn &&& 0xf80) >>> 7) ||| ((insn &&& 0xfe000000) >>> 20))

/-- cpu.c lines 94-98 (identical in core.c, r5.c). -/
def decode_immediate_B (insn : Nat) : Int :=
  sext 13 (((insn &&& 0x80) <<< 4) ||| ((insn &&& 0xf00) >>> 7) |||
           ((insn &&& 0x7e000000) >>> 20) ||| ((insn &&& 0x80000000) >>> 19))

/-- cpu.c lines 100-104 (identical in core.c, r5.c): `insn & 0xfffff000`
stored into a 20-bit signed bitfield. -/
def decode_immediate_U (insn : Nat) : Int := sext 20 (insn &&& 0xfffff000)

/-- cpu.c lines 106-110 (identical in core.c, r5.c): the 21-bit J immediate
stored into a 20-bit signed bitfield. -/
def decode_immediate_J (insn : Nat) : Int :=
  sext 20 ((insn &&& 0xff000) ||| ((insn &&& 0x100000) >>> 9) |||
           ((insn &&& 0x7fe00000) >>> 20) ||| ((insn &&& 0x80000000) >>> 11))

/-! ## Spec-side immediate encoders

The round-trip claim speaks of "encoding v into a 32-bit instruction word".
These encoders place a value's two's-complement bits into the instruction
fields exactly as the RISC-V ISA lays them out (I: insn[31:20];
S: insn[31:25] and insn[11:7]; B: insn[31], insn[30:25], insn[11:8], insn[7];
U: insn[31:12]; J: insn[31], insn[30:21], insn[20], insn[19:12]).
All non-immediate instruction bits are left zero; the decoders never read
them. -/

def encode_I (v : Int) : Nat := (wrap64 v % 2 ^ 12) <<< 20

def encode_S (v : Int) : Nat :=
  (((wrap64 v % 2 ^ 12) >>> 5) <<< 25) ||| (((wrap64 v % 2 ^ 12) &&& 0x1f) <<< 7)

def encode_B (v : Int) : Nat :=
  (((wrap64 v % 2 ^ 13) >>> 12) <<< 31) ||| ((((wrap64 v % 2 ^ 13) >>> 5) &&& 0x3f) <<< 25) |||
  ((((wrap64 v % 2 ^ 13) >>> 1) &&& 0xf) <<< 8) ||| ((((wrap64 v % 2 ^ 13) >>> 11) &&& 1) <<< 7)

def encode_U (v : Int) : Nat := (wrap64 v % 2 ^ 32) &&& 0xfffff000

def encode_J (v : Int) : Nat :=
  (((wrap64 v % 2 ^ 21) >>> 20) <<< 31) ||| ((((wrap64 v % 2 ^ 21) >>> 1) &&& 0x3ff) <<< 21) |||
  ((((wrap64 v % 2 ^ 21) >>> 11) &&& 1) <<< 20) ||| ((((wrap64 v % 2 ^ 21) >>> 12) &&& 0xff) <<< 12)

/-- What the spec asserts `decode_immediate_U` computes:
`sext(insn[31:12] ∥ 12'b0)`, a 32-bit sign extension. -/
def claimed_decode_immediate_U (insn : Nat) : Int := sext 32 (insn &&& 0xfffff000)

/-! ## Hart state and bus -/

/-- The hart state `CPU { uint64_t regs[32]; uint64_t pc; }` from cpu.h
(repeated verbatim in core.c and r5.c).  Registers are modelled as a total
function; the code only ever indexes with the 5-bit fields `rd`, `rs1`,
`rs2`, all below 32. -/
structure CPU where
  regs : Nat → Nat
  pc : Nat

/-- The four bus load operations from bus.h.  Note the declared types there:
`load8(uint64_t) → uint8_t`, `load16(uint16_t) → uint16_t`,
`load32(uint32_t) → uint32_t`, `load64(uint64_t) → uint32_t`; the embedding
truncates arguments and results at the call sites accordingly.  Stores act
only on external memory and never on the hart state. -/
structure Bus where
  load8 : Nat → Nat
  load16 : Nat → Nat
  load32 : Nat → Nat
  load64 : Nat → Nat

/-- `cpu->regs[r] = v`. -/
def setReg (cpu : CPU) (r v : Nat) : CPU :=
  { cpu with regs := Function.update cpu.regs r v }

/-- The speculative field decodes at the top of each executor:
`opcode = insn & 0x7f`. -/
def opcodeOf (insn : Nat) : Nat := insn &&& 0x7f

/-- `rd = (insn >> 7) & 0x1f`. -/
def rdOf (insn : Nat) : Nat := (insn >>> 7) &&& 0x1f

/-- `funct3 = (insn >> 12) & 0x7`. -/
def funct3Of (insn : Nat) : Nat := (insn >>> 12) &&& 0x7

/-- `rs1 = (insn >> 15) & 0x1f`. -/
def rs1Of (insn : Nat) : Nat := (insn >>> 15) &&& 0x1f

/-- `rs2 = (insn >> 20) & 0x1f`. -/
def rs2Of (insn : Nat) : Nat := (insn >>> 20) &&& 0x1f

/-- `funct7 = insn >> 25` (for a 32-bit instruction word this is 7 bits). -/
def funct7Of (insn : Nat) : Nat := insn >>> 25

/-- `address_misaligned(addr)` from cpu.c and core.c: the truth value of
`addr & 0x3`. -/
def address_misaligned (addr : Nat) : Bool := addr &&& 0x3 ≠ 0

/-! ## The BRANCH predicate

The inner `switch(funct3)` computing `should_branch` is identical in all
three files.  For `funct3 = 2` or `funct3 = 3` no case assigns
`should_branch` (cpu.c and core.c fall into an empty `default:`; r5.c has
no default at all), so the C code then tests an uninitialized variable;
the parameter `junk` stands for that indeterminate value. -/
def branch_taken (insn : Nat) (cpu : CPU) (junk : Bool) : Bool :=
  if funct3Of insn = 0 then decide (cpu.regs (rs1Of insn) = cpu.regs (rs2Of insn))
  else if funct3Of insn = 1 then decide (cpu.regs (rs1Of insn) ≠ cpu.regs (rs2Of insn))
  else if funct3Of insn = 4 then
    decide (sext 64 (cpu.regs (rs1Of insn)) < sext 64 (cpu.regs (rs2Of insn)))
  else if funct3Of insn = 5 then
    decide (sext 64 (cpu.regs (rs1Of insn)) ≥ sext 64 (cpu.regs (rs2Of insn)))
  else if funct3Of insn = 6 then decide (cpu.regs (rs1Of insn) < cpu.regs (rs2Of insn))
  else if funct3Of insn = 7 then decide (cpu.regs (rs1Of insn) ≥ cpu.regs (rs2Of insn))
  else junk

/-! ## OP-IMM (opcode 0x13)

The `case OP_IMM` switch is semantically identical in cpu.c, core.c and
r5.c (cpu.c writes the SRAI arm as `(int64_t)cpu->regs[rs1] >> shift`, the
other two call their arithmetic-shift helper; both mean
`arithmetic_shift_right_64`), so it is embedded once.  `imm & 0xfc0` and
`imm & 0x3f` on the `int64_t` immediate are bitwise operations on its
two's-complement pattern, i.e. on `wrap64 imm`.  Note the source bug kept
faithfully here: the SRAI arm is guarded by `shift_type == 0x10`, which is
impossible since `0xfc0 &&& 0x10 = 0`; such instructions fall into the
`// TODO: illegal instruction` arm, which does nothing. -/
def op_imm_exec (insn : Nat) (cpu : CPU) : CPU :=
  if funct3Of insn = 0 then
    setReg cpu (rdOf insn)
      (wrap64 ((cpu.regs (rs1Of insn) : Int) + decode_immediate_I insn))
  else if funct3Of insn = 2 then
    setReg cpu (rdOf insn)
      (if sext 64 (cpu.regs (rs1Of insn)) < decode_immediate_I insn then 1 else 0)
  else if funct3Of insn = 3 then
    setReg cpu (rdOf insn)
      (if cpu.regs (rs1Of insn) < wrap64 (decode_immediate_I insn) then 1 else 0)
  else if funct3Of insn = 4 then
    setReg cpu (rdOf insn) (cpu.regs (rs1Of insn) ^^^ wrap64 (decode_immediate_I insn))
  else if funct3Of insn = 6 then
    setReg cpu (rdOf insn) (cpu.regs (rs1Of insn) ||| wrap64 (decode_immediate_I insn))
  else if funct3Of insn = 7 then
    setReg cpu (rdOf insn) (cpu.regs (rs1Of insn) &&& wrap64 (decode_immediate_I insn))
  else if funct3Of insn = 1 then
    if wrap64 (decode_immediate_I insn) &&& 0xfc0 = 0 then
      setReg cpu (rdOf insn)
        ((cpu.regs (rs1Of insn) <<< (wrap64 (decode_immediate_I insn) &&& 0x3f)) % 2 ^ 64)
    else cpu
  else if funct3Of insn = 5 then
    if wrap64 (decode_immediate_I insn) &&& 0xfc0 = 0 then
      setReg cpu (rdOf insn)
        (cpu.regs (rs1Of insn) >>> (wrap64 (decode_immediate_I insn) &&& 0x3f))
    else if wrap64 (decode_immediate_I insn) &&& 0xfc0 = 0x10 then
      setReg cpu (rdOf insn)
        (arithmetic_shift_right_64 (cpu.regs (rs1Of insn))
          (wrap64 (decode_immediate_I insn) &&& 0x3f))
    else cpu
  else cpu

/-! ## OP (opcode 0x33), three variants

The three files differ exactly in the SRL/SRA arm (`funct3 = 5`):
cpu.c lines 313-321 shift logically in *both* the `funct7 == 0` and the
`funct7 == 0x20` branch (the `(int64_t)` cast is missing); core.c lines
285-293 use `arithmetic_shift_right_64` for `funct7 == 0x20`; r5.c lines
231-239 use the arithmetic shift but route it through `funct7 == 0x10`. -/

/-- `case OP_OP` of `exec32` in cpu.c. -/
def exec32_op (insn : Nat) (cpu : CPU) : CPU :=
  if funct3Of insn = 0 then
    if funct7Of insn = 0 then
      setReg cpu (rdOf insn)
        ((cpu.regs (rs1Of insn) + cpu.regs (rs2Of insn)) % 2 ^ 64)
    else if funct7Of insn = 0x20 then
      setReg cpu (rdOf insn)
        (wrap64 ((cpu.regs (rs1Of insn) : Int) - (cpu.regs (rs2Of insn) : Int)))
    else cpu
  else if funct3Of insn = 1 then
    if funct7Of insn = 0 then
      setReg cpu (rdOf insn)
        ((cpu.regs (rs1Of insn) <<< (cpu.regs (rs2Of insn) &&& 0x3f)) % 2 ^ 64)
    else cpu
  else if funct3Of insn = 2 then
    if funct7Of insn = 0 then
      setReg cpu (rdOf insn)
        (if sext 64 (cpu.regs (rs1Of insn)) < sext 64 (cpu.regs (rs2Of insn)) then 1 else 0)
    else cpu
  else if funct3Of insn = 3 then
    if funct7Of insn = 0 then
      setReg cpu (rdOf insn)
        (if cpu.regs (rs1Of insn) < cpu.regs (rs2Of insn) then 1 else 0)
    else cpu
  else if funct3Of insn = 4 then
    if funct7Of insn = 0 then
      setReg cpu (rdOf insn) (cpu.regs (rs1Of insn) ^^^ cpu.regs (rs2Of insn))
    else cpu
  else if funct3Of insn = 5 then
    if funct7Of insn = 0 then
      setReg cpu (rdOf insn)
        (cpu.regs (rs1Of insn) >>> (cpu.regs (rs2Of insn) &&& 0x3f))
    else if funct7Of insn = 0x20 then
      -- cpu.c line 318: logical shift again (SRA is mis-implemented here)
      setReg cpu (rdOf insn)
        (cpu.regs (rs1Of insn) >>> (cpu.regs (rs2Of insn) &&& 0x3f))
    else cpu
  else if funct3Of insn = 6 then
    if funct7Of insn = 0 then
      setReg cpu (rdOf insn) (cpu.regs (rs1Of insn) ||| cpu.regs (rs2Of insn))
    else cpu
  else if funct3Of insn = 7 then
    if funct7Of insn = 0 then
      setReg cpu (rdOf insn) (cpu.regs (rs1Of insn) &&& cpu.regs (rs2Of insn))
    else cpu
  else cpu

/-- `case OP_OP` of `exec` in core.c: identical to cpu.c's except the
`funct7 == 0x20` arm of `funct3 = 5` performs the arithmetic shift. -/
def core_op (insn : Nat) (cpu : CPU) : CPU :=
  if funct3Of insn = 5 then
    if funct7Of insn = 0 then
      setReg cpu (rdOf insn)
        (cpu.regs (rs1Of insn) >>> (cpu.regs (rs2Of insn) &&& 0x3f))
    else if funct7Of insn = 0x20 then
      setReg cpu (rdOf insn)
        (arithmetic_shift_right_64 (cpu.regs (rs1Of insn))
          (cpu.regs (rs2Of insn) &&& 0x3f))
    else cpu
  else exec32_op insn cpu

/-- `case OP_OP` of `exec` in r5.c: identical to cpu.c's except the
arithmetic-shift arm of `funct3 = 5` is guarded by `funct7 == 0x10`
(so the ISA's SRA encoding `funct7 = 0x20` falls into the
`// TODO: illegal instruction` arm and does nothing). -/
def r5_op (insn : Nat) (cpu : CPU) : CPU :=
  if funct3Of insn = 5 then
    if funct7Of insn = 0 then
      setReg cpu (rdOf insn)
        (cpu.regs (rs1Of insn) >>> (cpu.regs (rs2Of insn) &&& 0x3f))
    else if funct7Of insn = 0x10 then
      setReg cpu (rdOf insn)
        (arithmetic_shift_right_64 (cpu.regs (rs1Of insn))
          (cpu.regs (rs2Of insn) &&& 0x3f))
    else cpu
  else exec32_op insn cpu

/-! ## OP-IMM-32 (opcode 0x1b) and OP-32 (opcode 0x3b)

cpu.c casts every W-result through `(int32_t)` (sign-extension into the
64-bit register); core.c casts the same expressions through `(int64_t)`
applied to a `uint32_t` value, which *zero*-extends - except its SRAIW/SRAW
arms, which go through `arithmetic_shift_right_32` returning `int32_t` and
therefore still sign-extend.  r5.c has no W instructions. -/

/-- `case OP_IMM32` of `exec32` in cpu.c.  `imm32` is the low 32 bits of the
`int64_t` I-immediate (`uint32_t imm32 = decode_immediate_I(insn)`). -/
def exec32_op_imm32 (insn : Nat) (cpu : CPU) : CPU :=
  if funct3Of insn = 0 then
    setReg cpu (rdOf insn)
      (wrap64 (sext 32 ((cpu.regs (rs1Of insn) % 2 ^ 32 +
        wrap64 (decode_immediate_I insn) % 2 ^ 32) % 2 ^ 32)))
  else if funct3Of insn = 1 then
    if (wrap64 (decode_immediate_I insn) % 2 ^ 32) &&& 0xfe0 = 0 then
      setReg cpu (rdOf insn)
        (wrap64 (sext 32 ((cpu.regs (rs1Of insn) % 2 ^ 32 <<<
          ((wrap64 (decode_immediate_I insn) % 2 ^ 32) &&& 0x1f)) % 2 ^ 32)))
    else cpu
  else if funct3Of insn = 5 then
    if (wrap64 (decode_immediate_I insn) % 2 ^ 32) &&& 0xfe0 = 0 then
      setReg cpu (rdOf insn)
        (wrap64 (sext 32 ((cpu.regs (rs1Of insn) % 2 ^ 32) >>>
          ((wrap64 (decode_immediate_I insn) % 2 ^ 32) &&& 0x1f))))
    else if (wrap64 (decode_immediate_I insn) % 2 ^ 32) &&& 0xfe0 = 0x20 then
      setReg cpu (rdOf insn)
        (wrap64 (sext 32 (arithmetic_shift_right_32 (cpu.regs (rs1Of insn))
          ((wrap64 (decode_immediate_I insn) % 2 ^ 32) &&& 0x1f))))
    else cpu
  else cpu

/-- `case OP_IMM32` of `exec` in core.c: ADDIW, SLLIW and SRLIW results go
through `(int64_t)(uint32_t-expression)` and are therefore zero-extended;
only SRAIW sign-extends. -/
def core_op_imm32 (insn : Nat) (cpu : CPU) : CPU :=
  if funct3Of insn = 0 then
    setReg cpu (rdOf insn)
      ((cpu.regs (rs1Of insn) % 2 ^ 32 +
        wrap64 (decode_immediate_I insn) % 2 ^ 32) % 2 ^ 32)
  else if funct3Of insn = 1 then
    if (wrap64 (decode_immediate_I insn) % 2 ^ 32) &&& 0xfe0 = 0 then
      setReg cpu (rdOf insn)
        ((cpu.regs (rs1Of insn) % 2 ^ 32 <<<
          ((wrap64 (decode_immediate_I insn) % 2 ^ 32) &&& 0x1f)) % 2 ^ 32)
    else cpu
  else if funct3Of insn = 5 then
    if (wrap64 (decode_immediate_I insn) % 2 ^ 32) &&& 0xfe0 = 0 then
      setReg cpu (rdOf insn)
        ((cpu.regs (rs1Of insn) % 2 ^ 32) >>>
          ((wrap64 (decode_immediate_I insn) % 2 ^ 32) &&& 0x1f))
    else if (wrap64 (decode_immediate_I insn) % 2 ^ 32) &&& 0xfe0 = 0x20 then
      setReg cpu (rdOf insn)
        (wrap64 (sext 32 (arithmetic_shift_right_32 (cpu.regs (rs1Of insn))
          ((wrap64 (decode_immediate_I insn) % 2 ^ 32) &&& 0x1f))))
    else cpu
  else cpu

/-- `case OP_OP32` of `exec32` in cpu.c. -/
def exec32_op32 (insn : Nat) (cpu : CPU) : CPU :=
  if funct3Of insn = 0 then
    if funct7Of insn = 0 then
      setReg cpu (rdOf insn)
        (wrap64 (sext 32 ((cpu.regs (rs1Of insn) % 2 ^ 32 +
          cpu.regs (rs2Of insn) % 2 ^ 32) % 2 ^ 32)))
    else if funct7Of insn = 0x20 then
      setReg cpu (rdOf insn)
        (wrap64 (sext 32 ((cpu.regs (rs1Of insn) % 2 ^ 32 +
          (2 ^ 32 - cpu.regs (rs2Of insn) % 2 ^ 32)) % 2 ^ 32)))
    else cpu
  else if funct3Of insn = 1 then
    if funct7Of insn = 0 then
      setReg cpu (rdOf insn)
        (wrap64 (sext 32 ((cpu.regs (rs1Of insn) % 2 ^ 32 <<<
          (cpu.regs (rs2Of insn) &&& 0x1f)) % 2 ^ 32)))
    else cpu
  else if funct3Of insn = 5 then
    if funct7Of insn = 0 then
      setReg cpu (rdOf insn)
        (wrap64 (sext 32 ((cpu.regs (rs1Of insn) % 2 ^ 32) >>>
          (cpu.regs (rs2Of insn) &&& 0x1f))))
    else if funct7Of insn = 0x20 then
      setReg cpu (rdOf insn)
        (wrap64 (sext 32 (arithmetic_shift_right_32 (cpu.regs (rs1Of insn))
          (cpu.regs (rs2Of insn) &&& 0x1f))))
    else cpu
  else cpu

/-- `case OP_OP32` of `exec` in core.c: ADDW, SUBW, SLLW and SRLW results
are zero-extended (the `(int64_t)(uint32_t-expression)` cast); only SRAW
sign-extends. -/
def core_op32 (insn : Nat) (cpu : CPU) : CPU :=
  if funct3Of insn = 0 then
    if funct7Of insn = 0 then
      setReg cpu (rdOf insn)
        ((cpu.regs (rs1Of insn) % 2 ^ 32 + cpu.regs (rs2Of insn) % 2 ^ 32) % 2 ^ 32)
    else if funct7Of insn = 0x20 then
      setReg cpu (rdOf insn)
        ((cpu.regs (rs1Of insn) % 2 ^ 32 +
          (2 ^ 32 - cpu.regs (rs2Of insn) % 2 ^ 32)) % 2 ^ 32)
    else cpu
  else if funct3Of insn = 1 then
    if funct7Of insn = 0 then
      setReg cpu (rdOf insn)
        ((cpu.regs (rs1Of insn) % 2 ^ 32 <<< (cpu.regs (rs2Of insn) &&& 0x1f)) % 2 ^ 32)
    else cpu
  else if funct3Of insn = 5 then
    if funct7Of insn = 0 then
      setReg cpu (rdOf insn)
        ((cpu.regs (rs1Of insn) % 2 ^ 32) >>> (cpu.regs (rs2Of insn) &&& 0x1f))
    else if funct7Of insn = 0x20 then
      setReg cpu (rdOf insn)
        (wrap64 (sext 32 (arithmetic_shift_right_32 (cpu.regs (rs1Of insn))
          (cpu.regs (rs2Of insn) &&& 0x1f))))
    else cpu
  else cpu

/-- `case OP_LOAD` of `exec32` in cpu.c.  The effective address is
`cpu->regs[rs1] + decode_immediate_I(insn)` (wrapping `uint64_t`).
Result and argument widths follow the prototypes in bus.h, including its
declaration of `load64` as returning `uint32_t`. -/
def exec32_load (insn : Nat) (cpu : CPU) (bus : Bus) : CPU :=
  if funct3Of insn = 0 then
    setReg cpu (rdOf insn)
      (wrap64 (sext 8 (bus.load8 (wrap64 ((cpu.regs (rs1Of insn) : Int) +
        decode_immediate_I insn)) % 2 ^ 8)))
  else if funct3Of insn = 1 then
    setReg cpu (rdOf insn)
      (wrap64 (sext 16 (bus.load16 (wrap64 ((cpu.regs (rs1Of insn) : Int) +
        decode_immediate_I insn) % 2 ^ 16) % 2 ^ 16)))
  else if funct3Of insn = 2 then
    setReg cpu (rdOf insn)
      (wrap64 (sext 32 (bus.load32 (wrap64 ((cpu.regs (rs1Of insn) : Int) +
        decode_immediate_I insn) % 2 ^ 32) % 2 ^ 32)))
  else if funct3Of insn = 4 then
    setReg cpu (rdOf insn)
      (bus.load8 (wrap64 ((cpu.regs (rs1Of insn) : Int) +
        decode_immediate_I insn)) % 2 ^ 8)
  else if funct3Of insn = 5 then
    setReg cpu (rdOf insn)
      (bus.load16 (wrap64 ((cpu.regs (rs1Of insn) : Int) +
        decode_immediate_I insn) % 2 ^ 16) % 2 ^ 16)
  else if funct3Of insn = 6 then
    setReg cpu (rdOf insn)
      (bus.load32 (wrap64 ((cpu.regs (rs1Of insn) : Int) +
        decode_immediate_I insn) % 2 ^ 32) % 2 ^ 32)
  else if funct3Of insn = 3 then
    setReg cpu (rdOf insn)
      (bus.load64 (wrap64 ((cpu.regs (rs1Of insn) : Int) +
        decode_immediate_I insn)) % 2 ^ 32)
  else cpu

/-! ## The executors

Each executor is split as in the source: the big `switch(opcode)` (the
`*_step` function, returning the mutated state together with the
`pc_updated` flag) followed by the common postlude
(`if(!pc_updated) cpu->pc += 4;` and `cpu->regs[0] = 0;`, in this order in
cpu.c and in the opposite - but observably identical - order in core.c and
r5.c).  Every `break; // TODO: instruction misaligned` and
`break; // TODO: illegal instruction` in the source leaves the state
untouched and falls through to the postlude; the embedding mirrors that by
returning `(cpu, false)`. -/

/-- The `switch(opcode)` of `exec32` in cpu.c (lines 136-412). -/
def exec32_step (insn : Nat) (cpu : CPU) (bus : Bus) (junk : Bool) : CPU × Bool :=
  if opcodeOf insn = 0x37 then -- OP_LUI
    (setReg cpu (rdOf insn) (wrap64 (decode_immediate_U insn)), false)
  else if opcodeOf insn = 0x17 then -- OP_AUIPC
    (setReg cpu (rdOf insn) (wrap64 (decode_immediate_U insn + (cpu.pc : Int))), false)
  else if opcodeOf insn = 0x6f then -- OP_JAL: target = pc + J-imm
    (if address_misaligned (wrap64 ((cpu.pc : Int) + decode_immediate_J insn)) then
      (cpu, false) -- TODO: instruction misaligned
    else
      ({ setReg cpu (rdOf insn) ((cpu.pc + 4) % 2 ^ 64) with
         pc := wrap64 ((cpu.pc : Int) + decode_immediate_J insn) }, true))
  else if opcodeOf insn = 0x67 then
    -- OP_JALR: the source computes the target from cpu->pc, not regs[rs1]:
    -- `target = (cpu->pc + decode_immediate_I(insn)) & ~(uint64_t)1;`
    (if address_misaligned
        (wrap64 ((cpu.pc : Int) + decode_immediate_I insn) &&& 0xfffffffffffffffe) then
      (cpu, false) -- TODO: instruction misaligned
    else
      ({ setReg cpu (rdOf insn) ((cpu.pc + 4) % 2 ^ 64) with
         pc := wrap64 ((cpu.pc : Int) + decode_immediate_I insn) &&& 0xfffffffffffffffe },
       true))
  else if opcodeOf insn = 0x63 then -- OP_BRANCH
    (if branch_taken insn cpu junk then
      if address_misaligned (wrap64 ((cpu.pc : Int) + decode_immediate_B insn)) then
        (cpu, false) -- TODO: instruction misaligned
      else ({ cpu with pc := wrap64 ((cpu.pc : Int) + decode_immediate_B insn) }, true)
    else (cpu, false))
  else if opcodeOf insn = 0x03 then -- OP_LOAD
    (exec32_load insn cpu bus, false)
  else if opcodeOf insn = 0x23 then -- OP_STORE: writes go to the bus only
    (cpu, false)
  else if opcodeOf insn = 0x13 then -- OP_IMM
    (op_imm_exec insn cpu, false)
  else if opcodeOf insn = 0x33 then -- OP_OP
    (exec32_op insn cpu, false)
  else if opcodeOf insn = 0x1b then -- OP_IMM32
    (exec32_op_imm32 insn cpu, false)
  else if opcodeOf insn = 0x3b then -- OP_OP32
    (exec32_op32 insn cpu, false)
  else if opcodeOf insn = 0x0f then -- OP_MISC_MEM: FENCE is a no-op
    (cpu, false)
  else if opcodeOf insn = 0x73 then -- OP_SYSTEM: empty case body
    (cpu, false)
  else -- TODO: illegal instruction
    (cpu, false)

/-- `exec32(insn, cpu)` from cpu.c: the opcode dispatch followed by
`if(!pc_updated) cpu->pc += 4;` and `cpu->regs[0] = 0;`. -/
def exec32 (insn : Nat) (cpu : CPU) (bus : Bus) (junk : Bool) : CPU :=
  let s := exec32_step insn cpu bus junk
  let c := if s.2 then s.1 else { s.1 with pc := (s.1.pc + 4) % 2 ^ 64 }
  { c with regs := Function.update c.regs 0 0 }

/-- The `switch(opcode)` of `exec` in core.c (lines 136-363).  It has no
MISC_MEM or SYSTEM cases, its `OP_LOAD` case bodies are empty (they compute
no register update), `OP_STORE` is an immediate `break`, and its OP-IMM-32 /
OP-32 cases zero-extend as described above. -/
def core_step (insn : Nat) (cpu : CPU) (junk : Bool) : CPU × Bool :=
  if opcodeOf insn = 0x37 then
    (setReg cpu (rdOf insn) (wrap64 (decode_immediate_U insn)), false)
  else if opcodeOf insn = 0x17 then
    (setReg cpu (rdOf insn) (wrap64 (decode_immediate_U insn + (cpu.pc : Int))), false)
  else if opcodeOf insn = 0x6f then
    (if address_misaligned (wrap64 ((cpu.pc : Int) + decode_immediate_J insn)) then
      (cpu, false)
    else
      ({ setReg cpu (rdOf insn) ((cpu.pc + 4) % 2 ^ 64) with
         pc := wrap64 ((cpu.pc : Int) + decode_immediate_J insn) }, true))
  else if opcodeOf insn = 0x67 then
    -- same source bug as cpu.c: the JALR base is cpu->pc, not regs[rs1]
    (if address_misaligned
        (wrap64 ((cpu.pc : Int) + decode_immediate_I insn) &&& 0xfffffffffffffffe) then
      (cpu, false)
    else
      ({ setReg cpu (rdOf insn) ((cpu.pc + 4) % 2 ^ 64) with
         pc := wrap64 ((cpu.pc : Int) + decode_immediate_I insn) &&& 0xfffffffffffffffe },
       true))
  else if opcodeOf insn = 0x63 then
    (if branch_taken insn cpu junk then
      if address_misaligned (wrap64 ((cpu.pc : Int) + decode_immediate_B insn)) then
        (cpu, false)
      else ({ cpu with pc := wrap64 ((cpu.pc : Int) + decode_immediate_B insn) }, true)
    else (cpu, false))
  else if opcodeOf insn = 0x03 then -- OP_LOAD: every case body is empty
    (cpu, false)
  else if opcodeOf insn = 0x23 then -- OP_STORE: immediate break
    (cpu, false)
  else if opcodeOf insn = 0x13 then
    (op_imm_exec insn cpu, false)
  else if opcodeOf insn = 0x33 then
    (core_op insn cpu, false)
  else if opcodeOf insn = 0x1b then
    (core_op_imm32 insn cpu, false)
  else if opcodeOf insn = 0x3b then
    (core_op32 insn cpu, false)
  else
    (cpu, false)

/-- `exec(insn, cpu)` from core.c: dispatch, then `cpu->regs[0] = 0;` and
`if(!pc_updated) cpu->pc += 4;`. -/
def core_exec (insn : Nat) (cpu : CPU) (junk : Bool) : CPU :=
  let s := core_step insn cpu junk
  let c : CPU := { s.1 with regs := Function.update s.1.regs 0 0 }
  if s.2 then c else { c with pc := (c.pc + 4) % 2 ^ 64 }

/-- The `switch(opcode)` of `exec` in r5.c (lines 102-254).  Only LUI,
AUIPC, JAL, JALR, BRANCH, OP-IMM and OP are present.  Its alignment checks
read `target & INSN_ALIGN_MASK != 0`, which by C operator precedence is
`target & (INSN_ALIGN_MASK != 0)`, i.e. `target & 1`; that is embedded
faithfully (so a JALR target, whose bit 0 was just cleared, never tests as
misaligned). -/
def r5_step (insn : Nat) (cpu : CPU) (junk : Bool) : CPU × Bool :=
  if opcodeOf insn = 0x37 then
    (setReg cpu (rdOf insn) (wrap64 (decode_immediate_U insn)), false)
  else if opcodeOf insn = 0x17 then
    (setReg cpu (rdOf insn) (wrap64 (decode_immediate_U insn + (cpu.pc : Int))), false)
  else if opcodeOf insn = 0x6f then
    (if wrap64 ((cpu.pc : Int) + decode_immediate_J insn) &&& 1 ≠ 0 then
      (cpu, false)
    else
      ({ setReg cpu (rdOf insn) ((cpu.pc + 4) % 2 ^ 64) with
         pc := wrap64 ((cpu.pc : Int) + decode_immediate_J insn) }, true))
  else if opcodeOf insn = 0x67 then
    -- same source bug again: the JALR base is cpu->pc, not regs[rs1]
    (if (wrap64 ((cpu.pc : Int) + decode_immediate_I insn) &&& 0xfffffffffffffffe) &&& 1
        ≠ 0 then
      (cpu, false)
    else
      ({ setReg cpu (rdOf insn) ((cpu.pc + 4) % 2 ^ 64) with
         pc := wrap64 ((cpu.pc : Int) + decode_immediate_I insn) &&& 0xfffffffffffffffe },
       true))
  else if opcodeOf insn = 0x63 then
    (if branch_taken insn cpu junk then
      if wrap64 ((cpu.pc : Int) + decode_immediate_B insn) &&& 1 ≠ 0 then
        (cpu, false)
      else ({ cpu with pc := wrap64 ((cpu.pc : Int) + decode_immediate_B insn) }, true)
    else (cpu, false))
  else if opcodeOf insn = 0x13 then
    (op_imm_exec insn cpu, false)
  else if opcodeOf insn = 0x33 then
    (r5_op insn cpu, false)
  else
    (cpu, false)

/-- `exec(insn, cpu)` from r5.c: dispatch, then `cpu->regs[0] = 0;` and
`if(!pc_updated) cpu->pc += 4;`. -/
def r5_exec (insn : Nat) (cpu : CPU) (junk : Bool) : CPU :=
  let s := r5_step insn cpu junk
  let c : CPU := { s.1 with regs := Function.update s.1.regs 0 0 }
  if s.2 then c else { c with pc := (c.pc + 4) % 2 ^ 64 }

/-! ## Concrete fixtures for the claim evaluations -/

/-- A bus whose loads all return zero. -/
def bus0 : Bus := ⟨fun _ => 0, fun _ => 0, fun _ => 0, fun _ => 0⟩

/-- The all-zero hart state. -/
def cpu0 : CPU := ⟨fun _ => 0, 0⟩

/-- All registers zero, `pc = 0x1000`. -/
def cpuPC1000 : CPU := ⟨fun _ => 0, 0x1000⟩

/-- `x[1] = 0x100`, everything else zero. -/
def cpuX1_100 : CPU := ⟨fun i => if i = 1 then 0x100 else 0, 0⟩

/-- `x[1] = 0xFFFF_FFFF_FFFF_FFF0` (i.e. -16), everything else zero. -/
def cpuX1_F0 : CPU := ⟨fun i => if i = 1 then 0xFFFFFFFFFFFFFFF0 else 0, 0⟩

/-- `x[1] = 2^63`, `x[2] = 1`, everything else zero. -/
def cpuSRA : CPU := ⟨fun i => if i = 1 then 0x8000000000000000 else if i = 2 then 1 else 0, 0⟩

/-- `x[1] = 0x8000_0000`, everything else zero. -/
def cpuADDIW : CPU := ⟨fun i => if i = 1 then 0x80000000 else 0, 0⟩

/-! # Theorems

First some generic bit-manipulation lemmas used by the decoder round-trip
proofs, then the claims C1-C10. -/

/-- Masking with a contiguous field `(2^k - 1) <<< s` extracts the `k`-bit
field of `x` at position `s`, in place. -/
theorem and_mask (x k s : Nat) :
    x &&& ((2 ^ k - 1) <<< s) = x / 2 ^ s % 2 ^ k * 2 ^ s := by
  apply Nat.eq_of_testBit_eq
  intro i
  rw [show x / 2 ^ s % 2 ^ k * 2 ^ s = (x >>> s % 2 ^ k) <<< s by
    rw [Nat.shiftLeft_eq, Nat.shiftRight_eq_div_pow]]
  simp only [Nat.testBit_and, Nat.testBit_shiftLeft, Nat.testBit_two_pow_sub_one,
    Nat.testBit_mod_two_pow, Nat.testBit_shiftRight]
  by_cases h : s ≤ i
  · have h2 : s + (i - s) = i := by omega
    simp only [ge_iff_le, h, decide_True, Bool.true_and, h2]
    cases hx : x.testBit i <;> simp
  · simp [ge_iff_le, h]

/-- Bitwise-or of a multiple of `2^k` with a value below `2^k` is addition. -/
theorem or_eq_add (a b k : Nat) (ha : a % 2 ^ k = 0) (hb : b < 2 ^ k) :
    a ||| b = a + b := by
  have h2 : 2 ^ k * (a / 2 ^ k) = a := Nat.mul_div_cancel' (Nat.dvd_of_mod_eq_zero ha)
  calc a ||| b = 2 ^ k * (a / 2 ^ k) ||| b := by rw [h2]
    _ = 2 ^ k * (a / 2 ^ k) + b := (Nat.mul_add_lt_is_or hb _).symm
    _ = a + b := by rw [h2]

theorem field_extract (x hi lo s k : Nat) (hlo : lo < 2 ^ s) (hx : x < 2 ^ k) :
    (2 ^ s * (2 ^ k * hi + x) + lo) / 2 ^ s % 2 ^ k = x := by
  rw [Nat.mul_add_div (Nat.two_pow_pos s), Nat.div_eq_of_lt hlo, Nat.add_zero,
    Nat.mul_add_mod, Nat.mod_eq_of_lt hx]

set_option maxHeartbeats 1000000 in
theorem J_reassemble (p : Nat) (hp : p < 2 ^ 21) (he : p % 2 = 0) :
    decode_immediate_J
      ((p >>> 20) <<< 31 ||| ((p >>> 1) &&& 0x3ff) <<< 21 |||
       ((p >>> 11) &&& 1) <<< 20 ||| ((p >>> 12) &&& 0xff) <<< 12) = sext 20 p := by
  have A0 : p >>> 20 = p / 2 ^ 20 := by
    rw [Nat.shiftRight_eq_div_pow]
  have A1 : (p >>> 1) &&& 0x3ff = p / 2 % 2 ^ 10 := by
    rw [Nat.shiftRight_eq_div_pow, show (0x3ff : Nat) = 2 ^ 10 - 1 by norm_num,
      Nat.and_pow_two_sub_one_eq_mod]
  have A2 : (p >>> 11) &&& 1 = p / 2 ^ 11 % 2 := by
    rw [Nat.shiftRight_eq_div_pow, Nat.and_one_is_mod]
  have A3 : (p >>> 12) &&& 0xff = p / 2 ^ 12 % 2 ^ 8 := by
    rw [Nat.shiftRight_eq_div_pow, show (0xff : Nat) = 2 ^ 8 - 1 by norm_num,
      Nat.and_pow_two_sub_one_eq_mod]
  rw [A0, A1, A2, A3]
  have d1 : p / 2 ^ 12 / 2 ^ 8 = p / 2 ^ 20 := by
    rw [Nat.div_div_eq_div_mul]; norm_num
  have d2 : p / 2 ^ 11 / 2 = p / 2 ^ 12 := by
    rw [Nat.div_div_eq_div_mul]; norm_num
  have d3 : p / 2 / 2 ^ 10 = p / 2 ^ 11 := by
    rw [Nat.div_div_eq_div_mul]; norm_num
  have hsum : (p / 2 ^ 20) * 2 ^ 20 + (p / 2 ^ 12 % 2 ^ 8) * 2 ^ 12 +
      (p / 2 ^ 11 % 2) * 2 ^ 11 + (p / 2 % 2 ^ 10) * 2 = p := by omega
  obtain ⟨d, hD⟩ : ∃ x, p / 2 ^ 20 = x := ⟨_, rfl⟩
  obtain ⟨a, hA⟩ : ∃ x, p / 2 % 2 ^ 10 = x := ⟨_, rfl⟩
  obtain ⟨b, hB⟩ : ∃ x, p / 2 ^ 11 % 2 = x := ⟨_, rfl⟩
  obtain ⟨c, hC⟩ : ∃ x, p / 2 ^ 12 % 2 ^ 8 = x := ⟨_, rfl⟩
  have ha2 : a < 2 ^ 10 := hA ▸ Nat.mod_lt _ (by norm_num)
  have hb2 : b < 2 := hB ▸ Nat.mod_lt _ (by norm_num)
  have hc2 : c < 2 ^ 8 := hC ▸ Nat.mod_lt _ (by norm_num)
  have hd2 : d < 2 := by omega
  rw [hD, hA, hB, hC] at hsum ⊢
  clear hD hA hB hC A0 A1 A2 A3 d1 d2 d3
  rw [← hsum]
  rw [Nat.shiftLeft_eq, Nat.shiftLeft_eq, Nat.shiftLeft_eq, Nat.shiftLeft_eq]
  have step1 : d * 2 ^ 31 ||| a * 2 ^ 21 = d * 2 ^ 31 + a * 2 ^ 21 :=
    or_eq_add _ _ 31 (by omega) (by omega)
  have step2 : d * 2 ^ 31 + a * 2 ^ 21 ||| b * 2 ^ 20 =
      d * 2 ^ 31 + a * 2 ^ 21 + b * 2 ^ 20 :=
    or_eq_add _ _ 21 (by omega) (by omega)
  have step3 : d * 2 ^ 31 + a * 2 ^ 21 + b * 2 ^ 20 ||| c * 2 ^ 12 =
      d * 2 ^ 31 + a * 2 ^ 21 + b * 2 ^ 20 + c * 2 ^ 12 :=
    or_eq_add _ _ 20 (by omega) (by omega)
  rw [step1, step2, step3]
  unfold decode_immediate_J
  have m1 : (d * 2 ^ 31 + a * 2 ^ 21 + b * 2 ^ 20 + c * 2 ^ 12) &&& 0xff000 =
      (d * 2 ^ 31 + a * 2 ^ 21 + b * 2 ^ 20 + c * 2 ^ 12) / 2 ^ 12 % 2 ^ 8 * 2 ^ 12 := by
    rw [show (0xff000 : Nat) = (2 ^ 8 - 1) <<< 12 by decide, and_mask]
  have m2 : (d * 2 ^ 31 + a * 2 ^ 21 + b * 2 ^ 20 + c * 2 ^ 12) &&& 0x100000 =
      (d * 2 ^ 31 + a * 2 ^ 21 + b * 2 ^ 20 + c * 2 ^ 12) / 2 ^ 20 % 2 ^ 1 * 2 ^ 20 := by
    rw [show (0x100000 : Nat) = (2 ^ 1 - 1) <<< 20 by decide, and_mask]
  have m3 : (d * 2 ^ 31 + a * 2 ^ 21 + b * 2 ^ 20 + c * 2 ^ 12) &&& 0x7fe00000 =
      (d * 2 ^ 31 + a * 2 ^ 21 + b * 2 ^ 20 + c * 2 ^ 12) / 2 ^ 21 % 2 ^ 10 * 2 ^ 21 := by
    rw [show (0x7fe00000 : Nat) = (2 ^ 10 - 1) <<< 21 by decide, and_mask]
  have m4 : (d * 2 ^ 31 + a * 2 ^ 21 + b * 2 ^ 20 + c * 2 ^ 12) &&& 0x80000000 =
      (d * 2 ^ 31 + a * 2 ^ 21 + b * 2 ^ 20 + c * 2 ^ 12) / 2 ^ 31 % 2 ^ 1 * 2 ^ 31 := by
    rw [show (0x80000000 : Nat) = (2 ^ 1 - 1) <<< 31 by decide, and_mask]
  rw [m1, m2, m3, m4]
  have f1 : (d * 2 ^ 31 + a * 2 ^ 21 + b * 2 ^ 20 + c * 2 ^ 12) / 2 ^ 12 % 2 ^ 8 = c := by
    have hX : d * 2 ^ 31 + a * 2 ^ 21 + b * 2 ^ 20 + c * 2 ^ 12 =
        2 ^ 12 * (2 ^ 8 * (d * 2 ^ 11 + a * 2 + b) + c) + 0 := by ring
    rw [hX, field_extract _ _ _ _ _ (Nat.two_pow_pos 12) hc2]
  have f2 : (d * 2 ^ 31 + a * 2 ^ 21 + b * 2 ^ 20 + c * 2 ^ 12) / 2 ^ 20 % 2 ^ 1 = b := by
    have hX : d * 2 ^ 31 + a * 2 ^ 21 + b * 2 ^ 20 + c * 2 ^ 12 =
        2 ^ 20 * (2 ^ 1 * (d * 2 ^ 10 + a) + b) + c * 2 ^ 12 := by ring
    rw [hX, field_extract _ _ _ _ _ (by omega) (by omega)]
  have f3 : (d * 2 ^ 31 + a * 2 ^ 21 + b * 2 ^ 20 + c * 2 ^ 12) / 2 ^ 21 % 2 ^ 10 = a := by
    have hX : d * 2 ^ 31 + a * 2 ^ 21 + b * 2 ^ 20 + c * 2 ^ 12 =
        2 ^ 21 * (2 ^ 10 * d + a) + (b * 2 ^ 20 + c * 2 ^ 12) := by ring
    rw [hX, field_extract _ _ _ _ _ (by omega) (by omega)]
  have f4 : (d * 2 ^ 31 + a * 2 ^ 21 + b * 2 ^ 20 + c * 2 ^ 12) / 2 ^ 31 % 2 ^ 1 = d := by
    have hX : d * 2 ^ 31 + a * 2 ^ 21 + b * 2 ^ 20 + c * 2 ^ 12 =
        2 ^ 31 * (2 ^ 1 * 0 + d) + (a * 2 ^ 21 + b * 2 ^ 20 + c * 2 ^ 12) := by ring
    rw [hX, field_extract _ _ _ _ _ (by omega) (by omega)]
  rw [f1, f2, f3, f4]
  rw [Nat.shiftRight_eq_div_pow, Nat.shiftRight_eq_div_pow, Nat.shiftRight_eq_div_pow]
  have g2 : b * 2 ^ 20 / 2 ^ 9 = b * 2 ^ 11 := by omega
  have g3 : a * 2 ^ 21 / 2 ^ 20 = a * 2 := by omega
  have g4 : d * 2 ^ 31 / 2 ^ 11 = d * 2 ^ 20 := by omega
  rw [g2, g3, g4]
  have t1 : c * 2 ^ 12 ||| b * 2 ^ 11 = c * 2 ^ 12 + b * 2 ^ 11 :=
    or_eq_add _ _ 12 (by omega) (by omega)
  have t2 : c * 2 ^ 12 + b * 2 ^ 11 ||| a * 2 = c * 2 ^ 12 + b * 2 ^ 11 + a * 2 :=
    or_eq_add _ _ 11 (by omega) (by omega)
  rw [t1, t2, Nat.or_comm]
  have t3 : d * 2 ^ 20 ||| c * 2 ^ 12 + b * 2 ^ 11 + a * 2 =
      d * 2 ^ 20 + (c * 2 ^ 12 + b * 2 ^ 11 + a * 2) :=
    or_eq_add _ _ 20 (by omega) (by omega)
  rw [t3]
  have hX : d * 2 ^ 20 + (c * 2 ^ 12 + b * 2 ^ 11 + a * 2) =
      d * 2 ^ 20 + c * 2 ^ 12 + b * 2 ^ 11 + a * 2 := by omega
  rw [hX]

theorem sext12_wrap (v : Int) (h1 : -(2 ^ 11) ≤ v) (h2 : v < 2 ^ 11) :
    sext 12 (wrap64 v % 2 ^ 12) = v := by
  unfold sext wrap64
  split <;> omega

theorem I_roundtrip (v : Int) (h1 : -2048 ≤ v) (h2 : v < 2048) :
    decode_immediate_I (encode_I v) = v := by
  unfold decode_immediate_I encode_I
  rw [Nat.shiftLeft_shiftRight]
  exact sext12_wrap v (by omega) (by omega)

theorem S_roundtrip (v : Int) (h1 : -2048 ≤ v) (h2 : v < 2048) :
    decode_immediate_S (encode_S v) = v := by
  unfold decode_immediate_S encode_S
  have hp : wrap64 v % 2 ^ 12 < 2 ^ 12 := Nat.mod_lt _ (by norm_num)
  obtain ⟨p, hP⟩ : ∃ x, wrap64 v % 2 ^ 12 = x := ⟨_, rfl⟩
  rw [hP] at hp ⊢
  have A1 : p >>> 5 = p / 2 ^ 5 := Nat.shiftRight_eq_div_pow _ _
  have A2 : p &&& 0x1f = p % 2 ^ 5 := by
    rw [show (0x1f : Nat) = 2 ^ 5 - 1 by norm_num, Nat.and_pow_two_sub_one_eq_mod]
  rw [A1, A2, Nat.shiftLeft_eq, Nat.shiftLeft_eq]
  obtain ⟨hi, hHi⟩ : ∃ x, p / 2 ^ 5 = x := ⟨_, rfl⟩
  obtain ⟨lo, hLo⟩ : ∃ x, p % 2 ^ 5 = x := ⟨_, rfl⟩
  have hhi : hi < 2 ^ 7 := by omega
  have hlo : lo < 2 ^ 5 := by omega
  have hpsum : hi * 2 ^ 5 + lo = p := by omega
  rw [hHi, hLo]
  have e1 : hi * 2 ^ 25 ||| lo * 2 ^ 7 = hi * 2 ^ 25 + lo * 2 ^ 7 :=
    or_eq_add _ _ 12 (by omega) (by omega)
  rw [e1]
  have m1 : (hi * 2 ^ 25 + lo * 2 ^ 7) &&& 0xf80 =
      (hi * 2 ^ 25 + lo * 2 ^ 7) / 2 ^ 7 % 2 ^ 5 * 2 ^ 7 := by
    rw [show (0xf80 : Nat) = (2 ^ 5 - 1) <<< 7 by decide, and_mask]
  have m2 : (hi * 2 ^ 25 + lo * 2 ^ 7) &&& 0xfe000000 =
      (hi * 2 ^ 25 + lo * 2 ^ 7) / 2 ^ 25 % 2 ^ 7 * 2 ^ 25 := by
    rw [show (0xfe000000 : Nat) = (2 ^ 7 - 1) <<< 25 by decide, and_mask]
  rw [m1, m2]
  have f1 : (hi * 2 ^ 25 + lo * 2 ^ 7) / 2 ^ 7 % 2 ^ 5 = lo := by
    have hX : hi * 2 ^ 25 + lo * 2 ^ 7 = 2 ^ 7 * (2 ^ 5 * (hi * 2 ^ 13) + lo) + 0 := by
      ring
    rw [hX, field_extract _ _ _ _ _ (Nat.two_pow_pos 7) hlo]
  have f2 : (hi * 2 ^ 25 + lo * 2 ^ 7) / 2 ^ 25 % 2 ^ 7 = hi := by
    have hX : hi * 2 ^ 25 + lo * 2 ^ 7 = 2 ^ 25 * (2 ^ 7 * 0 + hi) + lo * 2 ^ 7 := by
      ring
    rw [hX, field_extract _ _ _ _ _ (by omega) hhi]
  rw [f1, f2]
  rw [Nat.shiftRight_eq_div_pow, Nat.shiftRight_eq_div_pow]
  have g1 : lo * 2 ^ 7 / 2 ^ 7 = lo := by omega
  have g2 : hi * 2 ^ 25 / 2 ^ 20 = hi * 2 ^ 5 := by omega
  rw [g1, g2, Nat.or_comm]
  have e2 : hi * 2 ^ 5 ||| lo = hi * 2 ^ 5 + lo :=
    or_eq_add _ _ 5 (by omega) (by omega)
  rw [e2, hpsum, ← hP]
  exact sext12_wrap v (by omega) (by omega)

theorem sext13_wrap (v : Int) (h1 : -(2 ^ 12) ≤ v) (h2 : v < 2 ^ 12) :
    sext 13 (wrap64 v % 2 ^ 13) = v := by
  unfold sext wrap64
  split <;> omega

theorem B_roundtrip (v : Int) (h1 : -4096 ≤ v) (h2 : v < 4096) (he : v % 2 = 0) :
    decode_immediate_B (encode_B v) = v := by
  unfold decode_immediate_B encode_B
  have hp : wrap64 v % 2 ^ 13 < 2 ^ 13 := Nat.mod_lt _ (by norm_num)
  have hpe : (wrap64 v % 2 ^ 13) % 2 = 0 := by unfold wrap64; omega
  obtain ⟨p, hP⟩ : ∃ x, wrap64 v % 2 ^ 13 = x := ⟨_, rfl⟩
  rw [hP] at hp hpe ⊢
  have A0 : p >>> 12 = p / 2 ^ 12 := Nat.shiftRight_eq_div_pow _ _
  have A1 : (p >>> 5) &&& 0x3f = p / 2 ^ 5 % 2 ^ 6 := by
    rw [Nat.shiftRight_eq_div_pow, show (0x3f : Nat) = 2 ^ 6 - 1 by norm_num,
      Nat.and_pow_two_sub_one_eq_mod]
  have A2 : (p >>> 1) &&& 0xf = p / 2 % 2 ^ 4 := by
    rw [Nat.shiftRight_eq_div_pow, show (0xf : Nat) = 2 ^ 4 - 1 by norm_num,
      Nat.and_pow_two_sub_one_eq_mod]
  have A3 : (p >>> 11) &&& 1 = p / 2 ^ 11 % 2 := by
    rw [Nat.shiftRight_eq_div_pow, Nat.and_one_is_mod]
  rw [A0, A1, A2, A3]
  have d1 : p / 2 ^ 5 / 2 ^ 6 = p / 2 ^ 11 := by rw [Nat.div_div_eq_div_mul]; norm_num
  have d2 : p / 2 ^ 11 / 2 = p / 2 ^ 12 := by rw [Nat.div_div_eq_div_mul]; norm_num
  have d3 : p / 2 / 2 ^ 4 = p / 2 ^ 5 := by rw [Nat.div_div_eq_div_mul]; norm_num
  have hsum : (p / 2 ^ 12) * 2 ^ 12 + (p / 2 ^ 11 % 2) * 2 ^ 11 +
      (p / 2 ^ 5 % 2 ^ 6) * 2 ^ 5 + (p / 2 % 2 ^ 4) * 2 = p := by omega
  obtain ⟨b12, hB12⟩ : ∃ x, p / 2 ^ 12 = x := ⟨_, rfl⟩
  obtain ⟨b11, hB11⟩ : ∃ x, p / 2 ^ 11 % 2 = x := ⟨_, rfl⟩
  obtain ⟨b105, hB105⟩ : ∃ x, p / 2 ^ 5 % 2 ^ 6 = x := ⟨_, rfl⟩
  obtain ⟨b41, hB41⟩ : ∃ x, p / 2 % 2 ^ 4 = x := ⟨_, rfl⟩
  have h12 : b12 < 2 := by omega
  have h11 : b11 < 2 := by omega
  have h105 : b105 < 2 ^ 6 := by omega
  have h41 : b41 < 2 ^ 4 := by omega
  rw [hB12, hB11, hB105, hB41] at hsum ⊢
  clear hB12 hB11 hB105 hB41 A0 A1 A2 A3 d1 d2 d3 hpe
  rw [Nat.shiftLeft_eq, Nat.shiftLeft_eq, Nat.shiftLeft_eq, Nat.shiftLeft_eq,
    Nat.shiftLeft_eq]
  -- encode side: b12*2^31 ||| b105*2^25 ||| b41*2^8 ||| b11*2^7
  have s1 : b12 * 2 ^ 31 ||| b105 * 2 ^ 25 = b12 * 2 ^ 31 + b105 * 2 ^ 25 :=
    or_eq_add _ _ 31 (by omega) (by omega)
  have s2 : b12 * 2 ^ 31 + b105 * 2 ^ 25 ||| b41 * 2 ^ 8 =
      b12 * 2 ^ 31 + b105 * 2 ^ 25 + b41 * 2 ^ 8 :=
    or_eq_add _ _ 25 (by omega) (by omega)
  have s3 : b12 * 2 ^ 31 + b105 * 2 ^ 25 + b41 * 2 ^ 8 ||| b11 * 2 ^ 7 =
      b12 * 2 ^ 31 + b105 * 2 ^ 25 + b41 * 2 ^ 8 + b11 * 2 ^ 7 :=
    or_eq_add _ _ 8 (by omega) (by omega)
  rw [s1, s2, s3]
  obtain ⟨e, hE⟩ : ∃ x, b12 * 2 ^ 31 + b105 * 2 ^ 25 + b41 * 2 ^ 8 + b11 * 2 ^ 7 = x :=
    ⟨_, rfl⟩
  rw [hE]
  -- decode side masks
  have m1 : e &&& 0x80 = e / 2 ^ 7 % 2 ^ 1 * 2 ^ 7 := by
    rw [show (0x80 : Nat) = (2 ^ 1 - 1) <<< 7 by decide, and_mask]
  have m2 : e &&& 0xf00 = e / 2 ^ 8 % 2 ^ 4 * 2 ^ 8 := by
    rw [show (0xf00 : Nat) = (2 ^ 4 - 1) <<< 8 by decide, and_mask]
  have m3 : e &&& 0x7e000000 = e / 2 ^ 25 % 2 ^ 6 * 2 ^ 25 := by
    rw [show (0x7e000000 : Nat) = (2 ^ 6 - 1) <<< 25 by decide, and_mask]
  have m4 : e &&& 0x80000000 = e / 2 ^ 31 % 2 ^ 1 * 2 ^ 31 := by
    rw [show (0x80000000 : Nat) = (2 ^ 1 - 1) <<< 31 by decide, and_mask]
  rw [m1, m2, m3, m4]
  have f1 : e / 2 ^ 7 % 2 ^ 1 = b11 := by
    have hX : e = 2 ^ 7 * (2 ^ 1 * (b12 * 2 ^ 23 + b105 * 2 ^ 17 + b41) + b11) + 0 := by
      rw [← hE]; ring
    rw [hX, field_extract _ _ _ _ _ (Nat.two_pow_pos 7) h11]
  have f2 : e / 2 ^ 8 % 2 ^ 4 = b41 := by
    have hX : e = 2 ^ 8 * (2 ^ 4 * (b12 * 2 ^ 19 + b105 * 2 ^ 13) + b41) + b11 * 2 ^ 7 := by
      rw [← hE]; ring
    rw [hX, field_extract _ _ _ _ _ (by omega) h41]
  have f3 : e / 2 ^ 25 % 2 ^ 6 = b105 := by
    have hX : e = 2 ^ 25 * (2 ^ 6 * b12 + b105) + (b41 * 2 ^ 8 + b11 * 2 ^ 7) := by
      rw [← hE]; ring
    rw [hX, field_extract _ _ _ _ _ (by omega) h105]
  have f4 : e / 2 ^ 31 % 2 ^ 1 = b12 := by
    have hX : e = 2 ^ 31 * (2 ^ 1 * 0 + b12) +
        (b105 * 2 ^ 25 + b41 * 2 ^ 8 + b11 * 2 ^ 7) := by
      rw [← hE]; ring
    rw [hX, field_extract _ _ _ _ _ (by omega) h12]
  rw [f1, f2, f3, f4]
  rw [Nat.shiftRight_eq_div_pow, Nat.shiftRight_eq_div_pow, Nat.shiftRight_eq_div_pow]
  have g1 : b11 * 2 ^ 7 * 2 ^ 4 = b11 * 2 ^ 11 := by ring
  have g2 : b41 * 2 ^ 8 / 2 ^ 7 = b41 * 2 := by omega
  have g3 : b105 * 2 ^ 25 / 2 ^ 20 = b105 * 2 ^ 5 := by omega
  have g4 : b12 * 2 ^ 31 / 2 ^ 19 = b12 * 2 ^ 12 := by omega
  rw [g1, g2, g3, g4]
  -- X = b11*2^11 ||| b41*2 ||| b105*2^5 ||| b12*2^12 : regroup
  rw [Nat.or_assoc (b11 * 2 ^ 11), Nat.or_comm (b41 * 2) (b105 * 2 ^ 5)]
  have u1 : b105 * 2 ^ 5 ||| b41 * 2 = b105 * 2 ^ 5 + b41 * 2 :=
    or_eq_add _ _ 5 (by omega) (by omega)
  rw [u1]
  have u2 : b11 * 2 ^ 11 ||| b105 * 2 ^ 5 + b41 * 2 =
      b11 * 2 ^ 11 + (b105 * 2 ^ 5 + b41 * 2) :=
    or_eq_add _ _ 11 (by omega) (by omega)
  rw [u2, Nat.or_comm]
  have u3 : b12 * 2 ^ 12 ||| b11 * 2 ^ 11 + (b105 * 2 ^ 5 + b41 * 2) =
      b12 * 2 ^ 12 + (b11 * 2 ^ 11 + (b105 * 2 ^ 5 + b41 * 2)) :=
    or_eq_add _ _ 12 (by omega) (by omega)
  rw [u3]
  have hfin : b12 * 2 ^ 12 + (b11 * 2 ^ 11 + (b105 * 2 ^ 5 + b41 * 2)) = p := by omega
  rw [hfin, ← hP]
  exact sext13_wrap v (by omega) (by omega)

theorem U_roundtrip (v : Int) (h1 : -(2 ^ 19) ≤ v) (h2 : v < 2 ^ 19)
    (hm : v % 4096 = 0) : decode_immediate_U (encode_U v) = v := by
  unfold decode_immediate_U encode_U
  rw [Nat.and_assoc, Nat.and_self]
  have m1 : (wrap64 v % 2 ^ 32) &&& 0xfffff000 =
      (wrap64 v % 2 ^ 32) / 2 ^ 12 % 2 ^ 20 * 2 ^ 12 := by
    rw [show (0xfffff000 : Nat) = (2 ^ 20 - 1) <<< 12 by decide, and_mask]
  rw [m1]
  unfold sext wrap64
  split <;> omega

theorem sext20_wrap (v : Int) (h1 : -(2 ^ 19) ≤ v) (h2 : v < 2 ^ 19) :
    sext 20 (wrap64 v % 2 ^ 21) = v := by
  unfold sext wrap64
  split <;> omega

theorem wrap_mod_two (v : Int) (he : v % 2 = 0) : (wrap64 v % 2 ^ 21) % 2 = 0 := by
  unfold wrap64
  omega

theorem J_roundtrip (v : Int) (h1 : -(2 ^ 19) ≤ v) (h2 : v < 2 ^ 19) (he : v % 2 = 0) :
    decode_immediate_J (encode_J v) = v := by
  unfold encode_J
  rw [J_reassemble (wrap64 v % 2 ^ 21) (Nat.mod_lt _ (by norm_num))
    (wrap_mod_two v he)]
  exact sext20_wrap v h1 h2

theorem decode_U_truncates (insn : Nat) :
    decode_immediate_U insn = sext 20 (insn &&& 0xff000) := by
  unfold decode_immediate_U
  have m1 : insn &&& 0xfffff000 = insn / 2 ^ 12 % 2 ^ 20 * 2 ^ 12 := by
    rw [show (0xfffff000 : Nat) = (2 ^ 20 - 1) <<< 12 by decide, and_mask]
  have m2 : insn &&& 0xff000 = insn / 2 ^ 12 % 2 ^ 8 * 2 ^ 12 := by
    rw [show (0xff000 : Nat) = (2 ^ 8 - 1) <<< 12 by decide, and_mask]
  have key : (insn / 2 ^ 12 % 2 ^ 20 * 2 ^ 12) % 2 ^ 20 =
      (insn / 2 ^ 12 % 2 ^ 8 * 2 ^ 12) % 2 ^ 20 := by omega
  rw [m1, m2]
  unfold sext
  rw [key]

/-- C2 (amended): the encode-decode round trip holds in full for the I, S
and B immediate formats, but for U and J only on values representable in a
*signed 20-bit* immediate (scaled by 2^12 for U), because both decoders
store their result in a 20-bit bitfield; in particular `decode_immediate_U`
returns `sext20(insn[19:12] ∥ 12'b0)`, not `sext(insn[31:12] ∥ 12'b0)`. -/
theorem decoder_roundtrip_amended :
    (∀ v : Int, -2048 ≤ v → v < 2048 → decode_immediate_I (encode_I v) = v) ∧
    (∀ v : Int, -2048 ≤ v → v < 2048 → decode_immediate_S (encode_S v) = v) ∧
    (∀ v : Int, -4096 ≤ v → v < 4096 → v % 2 = 0 → decode_immediate_B (encode_B v) = v) ∧
    (∀ v : Int, -(2 ^ 19) ≤ v → v < 2 ^ 19 → v % 4096 = 0 →
      decode_immediate_U (encode_U v) = v) ∧
    (∀ v : Int, -(2 ^ 19) ≤ v → v < 2 ^ 19 → v % 2 = 0 →
      decode_immediate_J (encode_J v) = v) ∧
    (∀ insn : Nat, decode_immediate_U insn = sext 20 (insn &&& 0xff000)) :=
  ⟨I_roundtrip, S_roundtrip, B_roundtrip, U_roundtrip, J_roundtrip, decode_U_truncates⟩

theorem decoder_roundtrip_amended_witness :
    decode_immediate_I (encode_I (-1)) = -1 ∧
    decode_immediate_S (encode_S 2047) = 2047 ∧
    decode_immediate_B (encode_B (-2)) = -2 ∧
    decode_immediate_U (encode_U 4096) = 4096 ∧
    decode_immediate_J (encode_J (-2)) = -2 :=
  ⟨decoder_roundtrip_amended.1 (-1) (by norm_num) (by norm_num),
   decoder_roundtrip_amended.2.1 2047 (by norm_num) (by norm_num),
   decoder_roundtrip_amended.2.2.1 (-2) (by norm_num) (by norm_num) (by decide),
   decoder_roundtrip_amended.2.2.2.1 4096 (by norm_num) (by norm_num) (by decide),
   decoder_roundtrip_amended.2.2.2.2.1 (-2) (by norm_num) (by norm_num) (by decide)⟩

/-- C2 (counterexample): as stated, the claim is false.  `decode_immediate_U`
does not compute `sext(insn[31:12] ∥ 12'b0)` (e.g. on the LUI word
0xABCDE137 from the spec scenarios), and the U and J round trips fail on
representable values outside the signed 20-bit window. -/
theorem decoder_roundtrip_counterexample :
    decode_immediate_U 0xABCDE137 ≠ claimed_decode_immediate_U 0xABCDE137 ∧
    decode_immediate_U (encode_U (2 ^ 20)) ≠ (2 ^ 20 : Int) ∧
    decode_immediate_J (encode_J (2 ^ 19)) ≠ (2 ^ 19 : Int) := by
  refine ⟨?_, ?_, ?_⟩ <;> decide

theorem op_imm_frame (insn : Nat) (cpu : CPU) (i : Nat) (hi : i ≠ rdOf insn) :
    (op_imm_exec insn cpu).regs i = cpu.regs i := by
  unfold op_imm_exec
  repeat' split
  all_goals simp [setReg, Function.update_apply, hi]

theorem exec32_op_frame (insn : Nat) (cpu : CPU) (i : Nat) (hi : i ≠ rdOf insn) :
    (exec32_op insn cpu).regs i = cpu.regs i := by
  unfold exec32_op
  repeat' split
  all_goals simp [setReg, Function.update_apply, hi]

theorem core_op_frame (insn : Nat) (cpu : CPU) (i : Nat) (hi : i ≠ rdOf insn) :
    (core_op insn cpu).regs i = cpu.regs i := by
  unfold core_op
  repeat' split
  all_goals simp [setReg, Function.update_apply, hi, exec32_op_frame insn cpu i hi]

theorem r5_op_frame (insn : Nat) (cpu : CPU) (i : Nat) (hi : i ≠ rdOf insn) :
    (r5_op insn cpu).regs i = cpu.regs i := by
  unfold r5_op
  repeat' split
  all_goals simp [setReg, Function.update_apply, hi, exec32_op_frame insn cpu i hi]

theorem exec32_op_imm32_frame (insn : Nat) (cpu : CPU) (i : Nat) (hi : i ≠ rdOf insn) :
    (exec32_op_imm32 insn cpu).regs i = cpu.regs i := by
  unfold exec32_op_imm32
  repeat' split
  all_goals simp [setReg, Function.update_apply, hi]

theorem core_op_imm32_frame (insn : Nat) (cpu : CPU) (i : Nat) (hi : i ≠ rdOf insn) :
    (core_op_imm32 insn cpu).regs i = cpu.regs i := by
  unfold core_op_imm32
  repeat' split
  all_goals simp [setReg, Function.update_apply, hi]

theorem exec32_op32_frame (insn : Nat) (cpu : CPU) (i : Nat) (hi : i ≠ rdOf insn) :
    (exec32_op32 insn cpu).regs i = cpu.regs i := by
  unfold exec32_op32
  repeat' split
  all_goals simp [setReg, Function.update_apply, hi]

theorem core_op32_frame (insn : Nat) (cpu : CPU) (i : Nat) (hi : i ≠ rdOf insn) :
    (core_op32 insn cpu).regs i = cpu.regs i := by
  unfold core_op32
  repeat' split
  all_goals simp [setReg, Function.update_apply, hi]

theorem exec32_load_frame (insn : Nat) (cpu : CPU) (bus : Bus) (i : Nat)
    (hi : i ≠ rdOf insn) : (exec32_load insn cpu bus).regs i = cpu.regs i := by
  unfold exec32_load
  repeat' split
  all_goals simp [setReg, Function.update_apply, hi]

set_option maxHeartbeats 1000000 in
theorem exec32_step_frame (insn : Nat) (cpu : CPU) (bus : Bus) (junk : Bool) (i : Nat)
    (hi : i ≠ rdOf insn) : (exec32_step insn cpu bus junk).1.regs i = cpu.regs i := by
  simp only [exec32_step]
  simp [apply_ite Prod.fst, apply_ite (fun c : CPU => c.regs i), setReg,
    Function.update_apply, hi, op_imm_frame insn cpu i hi,
    exec32_op_frame insn cpu i hi, exec32_op_imm32_frame insn cpu i hi,
    exec32_op32_frame insn cpu i hi, exec32_load_frame insn cpu bus i hi]

set_option maxHeartbeats 1000000 in
theorem core_step_frame (insn : Nat) (cpu : CPU) (junk : Bool) (i : Nat)
    (hi : i ≠ rdOf insn) : (core_step insn cpu junk).1.regs i = cpu.regs i := by
  simp only [core_step]
  simp [apply_ite Prod.fst, apply_ite (fun c : CPU => c.regs i), setReg,
    Function.update_apply, hi, op_imm_frame insn cpu i hi,
    core_op_frame insn cpu i hi, core_op_imm32_frame insn cpu i hi,
    core_op32_frame insn cpu i hi]

theorem exec32_frame (insn : Nat) (cpu : CPU) (bus : Bus) (junk : Bool) (i : Nat)
    (hi : i ≠ rdOf insn) (h0 : i ≠ 0) :
    (exec32 insn cpu bus junk).regs i = cpu.regs i := by
  have h := exec32_step_frame insn cpu bus junk i hi
  simp only [exec32]
  split <;> simp [Function.update_apply, h0, h]

theorem core_frame (insn : Nat) (cpu : CPU) (junk : Bool) (i : Nat)
    (hi : i ≠ rdOf insn) (h0 : i ≠ 0) :
    (core_exec insn cpu junk).regs i = cpu.regs i := by
  have h := core_step_frame insn cpu junk i hi
  simp only [core_exec]
  split <;> simp [Function.update_apply, h0, h]


theorem exec32_regs0 (insn : Nat) (cpu : CPU) (bus : Bus) (junk : Bool) :
    (exec32 insn cpu bus junk).regs 0 = 0 := by
  simp only [exec32]
  simp

theorem core_regs0 (insn : Nat) (cpu : CPU) (junk : Bool) :
    (core_exec insn cpu junk).regs 0 = 0 := by
  simp only [core_exec]
  split <;> simp

theorem r5_regs0 (insn : Nat) (cpu : CPU) (junk : Bool) :
    (r5_exec insn cpu junk).regs 0 = 0 := by
  simp only [r5_exec]
  split <;> simp

/-- C9: for every hart state and every 32-bit instruction word, `x[0] = 0`
after the executor returns (all three source files end with
`cpu->regs[0] = 0;`), including when the instruction names `rd = 0`. -/
theorem x0_zero_after_execute (insn : Nat) (cpu : CPU) (bus : Bus) (junk : Bool)
    (_h32 : insn < 2 ^ 32) :
    (exec32 insn cpu bus junk).regs 0 = 0 ∧ (core_exec insn cpu junk).regs 0 = 0 ∧
    (r5_exec insn cpu junk).regs 0 = 0 :=
  ⟨exec32_regs0 insn cpu bus junk, core_regs0 insn cpu junk, r5_regs0 insn cpu junk⟩

theorem x0_zero_after_execute_witness :
    (exec32 0x00500013 cpu0 bus0 false).regs 0 = 0 ∧
    (core_exec 0x00500013 cpu0 false).regs 0 = 0 ∧
    (r5_exec 0x00500013 cpu0 false).regs 0 = 0 :=
  x0_zero_after_execute 0x00500013 cpu0 bus0 false (by norm_num)

/-- C10: the executors of cpu.c and core.c modify no register other than
`x[rd]` (bits [11:7] of the instruction word) and `x[0]`: every other
register keeps its value. -/
theorem execute_frame_property (insn : Nat) (cpu : CPU) (bus : Bus) (junk : Bool)
    (i : Nat) (_h32 : insn < 2 ^ 32) (hrd : i ≠ rdOf insn) (h0 : i ≠ 0) :
    (exec32 insn cpu bus junk).regs i = cpu.regs i ∧
    (core_exec insn cpu junk).regs i = cpu.regs i :=
  ⟨exec32_frame insn cpu bus junk i hrd h0, core_frame insn cpu junk i hrd h0⟩

theorem execute_frame_property_witness :
    (exec32 0x00008167 cpuX1_100 bus0 false).regs 5 = cpuX1_100.regs 5 ∧
    (core_exec 0x00008167 cpuX1_100 false).regs 5 = cpuX1_100.regs 5 :=
  execute_frame_property 0x00008167 cpuX1_100 bus0 false 5 (by norm_num)
    (by decide) (by decide)


/-- C1: JALR (insn `0x00008167` = JALR x2, 0(x1), funct3 0) computes its
target from `pc`, not from `x[rs1]`: with `pc = 0`, `x[1] = 0x100` all three
executors set `pc` to `(pc + imm) & ~1 = 0` and `x[2] = pc + 4 = 4`, while
the value `(x[rs1] + I-imm) & ~1` demanded by the claim is `0x100`. -/
theorem jalr_uses_pc_not_rs1 :
    (exec32 0x00008167 cpuX1_100 bus0 false).pc = 0 ∧
    (exec32 0x00008167 cpuX1_100 bus0 false).regs 2 = 4 ∧
    (core_exec 0x00008167 cpuX1_100 false).pc = 0 ∧
    (r5_exec 0x00008167 cpuX1_100 false).pc = 0 ∧
    wrap64 ((cpuX1_100.regs 1 : Int) + decode_immediate_I 0x00008167) &&&
      0xfffffffffffffffe = 0x100 := by
  refine ⟨?_, ?_, ?_, ?_, ?_⟩ <;> decide

/-- C3: on the unrecognized opcode 0x0B the executor raises nothing (the
source has only `break; // TODO: illegal instruction`) and then advances
`pc` by 4 instead of leaving it unchanged. -/
theorem unknown_opcode_advances_pc_silently :
    (exec32 0x0000000B cpu0 bus0 false).pc = 4 ∧
    (core_exec 0x0000000B cpu0 false).pc = 4 ∧
    (r5_exec 0x0000000B cpu0 false).pc = 4 := by
  refine ⟨?_, ?_, ?_⟩ <;> decide

/-- C4: JAL x1, +2 from `pc = 0x1000` (insn `0x002000EF`) has the misaligned
target `0x1002`; cpu.c detects the misalignment but only executes
`break; // TODO: instruction misaligned`, so no exception is raised, `rd` is
indeed not written, and `pc` advances to `0x1004` instead of staying at
`0x1000`. -/
theorem jal_misaligned_advances_pc_silently :
    wrap64 ((cpuPC1000.pc : Int) + decode_immediate_J 0x002000EF) = 0x1002 ∧
    (exec32 0x002000EF cpuPC1000 bus0 false).pc = 0x1004 ∧
    (exec32 0x002000EF cpuPC1000 bus0 false).regs 1 = 0 := by
  refine ⟨?_, ?_, ?_⟩ <;> decide

/-- C5: a BRANCH with funct3 = 2 (insn `0x00002463`, B-imm = 8) makes the
source read the uninitialized `should_branch`: no exception is raised and
the outcome depends on the indeterminate value - with `junk = true` the
executor branches to `pc + B-imm = 8`, with `junk = false` it falls through
to `pc + 4` - so the outcome is not a function of the state and the
instruction word alone. -/
theorem branch_funct3_2_uninitialized :
    funct3Of 0x00002463 = 2 ∧
    (exec32 0x00002463 cpu0 bus0 true).pc = 8 ∧
    (exec32 0x00002463 cpu0 bus0 false).pc = 4 ∧
    (r5_exec 0x00002463 cpu0 true).pc = 8 := by
  refine ⟨?_, ?_, ?_, ?_⟩ <;> decide

/-- C6: SRAI x3, x1, 4 (insn `0x4040D193`, with `insn[31:26] = 010000`) is
routed by all three files through `shift_type == 0x10`, which can never hold
(`shift_type = imm & 0xfc0 = 0x400` here), so with
`x[1] = 0xFFFF_FFFF_FFFF_FFF0` the instruction writes nothing: `x[3]` stays
0 although the claimed arithmetic shift result is `0xFFFF_FFFF_FFFF_FFFF`
(`pc` still advances by 4). -/
theorem srai_never_executes :
    (0x4040D193 : Nat) >>> 26 = 0x10 ∧
    (exec32 0x4040D193 cpuX1_F0 bus0 false).regs 3 = 0 ∧
    (exec32 0x4040D193 cpuX1_F0 bus0 false).pc = 4 ∧
    (core_exec 0x4040D193 cpuX1_F0 false).regs 3 = 0 ∧
    (r5_exec 0x4040D193 cpuX1_F0 false).regs 3 = 0 ∧
    arithmetic_shift_right_64 0xFFFFFFFFFFFFFFF0 4 = 0xFFFFFFFFFFFFFFFF := by
  refine ⟨?_, ?_, ?_, ?_, ?_, ?_⟩ <;> decide

/-- C7: SRA x3, x1, x2 (insn `0x4020D1B3`, opcode 0x33, funct3 5, funct7
0x20) with `x[1] = 2^63`, `x[2] = 1`: cpu.c's funct7 = 0x20 arm shifts
*logically* (result `2^62`), core.c shifts arithmetically (result
`2^63 + 2^62`, as the claim demands), and r5.c treats funct7 = 0x20 as
illegal and writes nothing. -/
theorem sra_funct7_divergence :
    funct3Of 0x4020D1B3 = 5 ∧ funct7Of 0x4020D1B3 = 0x20 ∧
    (exec32 0x4020D1B3 cpuSRA bus0 false).regs 3 = 0x4000000000000000 ∧
    (core_exec 0x4020D1B3 cpuSRA false).regs 3 = 0xC000000000000000 ∧
    (r5_exec 0x4020D1B3 cpuSRA false).regs 3 = 0 := by
  refine ⟨?_, ?_, ?_, ?_, ?_⟩ <;> decide

/-- C8: ADDIW x2, x1, 0 (insn `0x0000811B`) with `x[1] = 0x8000_0000`:
core.c's `(int64_t)((uint32_t)x + imm32)` zero-extends, writing
`0x0000_0000_8000_0000`, while cpu.c's `(int32_t)` cast sign-extends,
writing `0xFFFF_FFFF_8000_0000` as the claim demands. -/
theorem addiw_core_zero_extends :
    (core_exec 0x0000811B cpuADDIW false).regs 2 = 0x80000000 ∧
    (exec32 0x0000811B cpuADDIW bus0 false).regs 2 = 0xFFFFFFFF80000000 := by
  refine ⟨?_, ?_⟩ <;> decide

end R5
